import Mathlib

/-!
Shallow embedding of the Delhi High Court case-status scraper (src/app.py) and
proofs about the properties its design document states.

The scraper's effectful primitives (Playwright page navigation, element lookup,
screenshots, form fill, the Tesseract OCR engine) are modelled as explicit
environments: a function field gives the value the primitive returns at each
call site, and the embedded functions additionally emit a trace of the effects
they perform, so that claims about "what the code does" (which elements it
fills, which URLs it visits, how often it captures the CAPTCHA) become
statements about the returned trace.
-/

/-! ## Python string primitives used by app.py -/

/-- Python whitespace test restricted to the ASCII repertoire: the characters
recognized by both `str.strip()` and the regex class `\s` on the inputs this
scraper sees (space, tab, newline, carriage return, vertical tab, form feed). -/
def pyIsSpaceC (c : Char) : Bool :=
  decide (c = ' ' ∨ c = '\t' ∨ c = '\n' ∨ c = '\r' ∨ c.toNat = 11 ∨ c.toNat = 12)

/-- Python `str.strip()` on a character list: drop whitespace from both ends. -/
def stripL (l : List Char) : List Char :=
  ((l.dropWhile pyIsSpaceC).reverse.dropWhile pyIsSpaceC).reverse

/-- Python `str.strip()` on a `String` (app.py lines 44, 61, 191, 269-271). -/
def pyStripS (s : String) : String := ⟨stripL s.data⟩

/-- The restriction of Python `str.isalnum()` to the ASCII repertoire: digits,
upper-case and lower-case letters — exactly the whitelist `[0-9A-Za-z]` the
design document names and the character set the Tesseract configuration at
app.py line 188 requests.  Python `isalnum` itself also accepts non-ASCII
alphanumerics; the faithful form with the non-ASCII Unicode table made
explicit is `pyIsAlnumU` below.  This restriction is used in the solver-loop
model, whose claims depend only on the length and structure of the recognized
text, never on its non-ASCII content. -/
def pyIsAlnumAscii (c : Char) : Bool :=
  decide ((48 ≤ c.toNat ∧ c.toNat ≤ 57) ∨ (65 ≤ c.toNat ∧ c.toNat ≤ 90) ∨
          (97 ≤ c.toNat ∧ c.toNat ≤ 122))

/-- Python `str.isalnum()` (app.py line 194) with the non-ASCII part of the
Unicode category tables abstracted: on code points up to 127 it is exactly
the ranges `0-9`, `A-Z`, `a-z`; beyond 127 Python consults the Unicode tables
(all letters and numbers are alphanumeric — for instance U+00E9, Latin small
letter e with acute, is accepted), abstracted as the argument `tbl`. -/
def pyIsAlnumU (tbl : Char → Bool) (c : Char) : Bool :=
  if c.toNat ≤ 127 then
    decide ((48 ≤ c.toNat ∧ c.toNat ≤ 57) ∨ (65 ≤ c.toNat ∧ c.toNat ≤ 90) ∨
            (97 ≤ c.toNat ∧ c.toNat ≤ 122))
  else tbl c

/-- The OCR post-processing of app.py lines 191-194 — strip the raw engine
output, then keep only the characters Python classes as alphanumeric — with
the non-ASCII Unicode table abstracted as `tbl`. -/
def cleanTextU (tbl : Char → Bool) (raw : String) : String :=
  ⟨(stripL raw.data).filter (pyIsAlnumU tbl)⟩

/-- A fragment of the Unicode alphanumeric table sufficient for the
counterexample below: the single code point U+00E9 (Latin small letter e with
acute), for which Python reports `isalnum()` true. -/
def unicodeTblDemo : Char → Bool := fun c => decide (c.toNat = 233)

/-- The OCR post-processing of app.py lines 191-194 restricted to the ASCII
repertoire (it agrees with `cleanTextU` for every table on raw strings whose
characters are all ASCII): strip the raw engine output, then keep only
alphanumeric characters. -/
def cleanText (raw : String) : String :=
  ⟨(stripL raw.data).filter pyIsAlnumAscii⟩

/-- Python `x or d` for strings: the empty string is falsy (app.py 269-271). -/
def pyOrS (s d : String) : String := if s = "" then d else s

/-! ## The dates-cell regex (app.py lines 263-266)

`re.search(r'NEXT DATE:\s*(.*?)\s*Last Date:\s*(.*?)\s*COURT NO:\s*(.*)', dates)`
is embedded as a backtracking matcher specialized to sequences of the four
kinds of items this pattern uses. -/

/-- Length of the longest prefix of `l` whose characters all satisfy `p`. -/
def countWhile (p : Char → Bool) : List Char → Nat
  | [] => 0
  | c :: cs => if p c then countWhile p cs + 1 else 0

/-- Characters matched by `.` in a Python regex without DOTALL: all but newline. -/
def notNL (c : Char) : Bool := decide (¬ c = '\n')

/-- Items of the fixed pattern used at app.py lines 263-266: `lit` is a
literal, `wsStar` an uncaptured greedy `\s*`, `dotStarLazy` a captured lazy
`(.*?)`, `dotStarGreedy` a captured greedy `(.*)`. -/
inductive RItem where
  | lit : List Char → RItem
  | wsStar : RItem
  | dotStarLazy : RItem
  | dotStarGreedy : RItem

/-- Backtracking matcher for a sequence of pattern items against an input
anchored at its head, returning the captured groups in order.  Choice order
follows Python `re`: a greedy star tries its longest extent first, a lazy star
its shortest, and an earlier item exhausts all continuations of later items
before backtracking itself. -/
def matchItems : List RItem → List Char → Option (List (List Char))
  | [], _ => some []
  | RItem.lit l :: ps, s =>
      if l.isPrefixOf s then matchItems ps (s.drop l.length) else none
  | RItem.wsStar :: ps, s =>
      ((List.range (countWhile pyIsSpaceC s + 1)).reverse).findSome?
        (fun k => matchItems ps (s.drop k))
  | RItem.dotStarLazy :: ps, s =>
      (List.range (countWhile notNL s + 1)).findSome?
        (fun k => (matchItems ps (s.drop k)).map (fun gs => s.take k :: gs))
  | RItem.dotStarGreedy :: ps, s =>
      ((List.range (countWhile notNL s + 1)).reverse).findSome?
        (fun k => (matchItems ps (s.drop k)).map (fun gs => s.take k :: gs))

/-- Python `re.search`: try the pattern at each start offset, leftmost first. -/
def reSearch (items : List RItem) (s : List Char) : Option (List (List Char)) :=
  (List.range (s.length + 1)).findSome? (fun i => matchItems items (s.drop i))

/-- The compiled pattern of app.py lines 263-266. -/
def datesPattern : List RItem :=
  [RItem.lit ("NEXT DATE:".data), RItem.wsStar, RItem.dotStarLazy, RItem.wsStar,
   RItem.lit ("Last Date:".data), RItem.wsStar, RItem.dotStarLazy, RItem.wsStar,
   RItem.lit ("COURT NO:".data), RItem.wsStar, RItem.dotStarGreedy]

/-- The dates-cell parsing of `extract_case_data` (app.py lines 257-271):
regex search, then per-group strip with per-group Python `or` fallback (`"NA"`
for the next-date group, `"Not available"` for the other two); when the search
fails all three fields keep their `"Not available"` defaults. -/
def parseDatesFields (dates : String) : String × String × String :=
  match reSearch datesPattern dates.data with
  | some (g1 :: g2 :: g3 :: _) =>
      (pyOrS ⟨stripL g1⟩ "NA", pyOrS ⟨stripL g2⟩ "Not available",
       pyOrS ⟨stripL g3⟩ "Not available")
  | _ => ("Not available", "Not available", "Not available")

/-! ## Configuration (app.py lines 15-21)

The process environment configures exactly three values: `FLASK_SECRET`,
`BASE_URL` and `TESSERACT_PATH`.  No other configuration is read anywhere in
app.py. -/

/-- The configuration surface of app.py: the three environment values read at
lines 16-19 (each with its hardcoded default when unset). -/
structure AppConfig where
  flaskSecret : String
  baseURL : String
  tesseractPath : String

/-- The configuration obtained when no environment variable is set
(app.py lines 16-19). -/
def defaultConfig : AppConfig :=
  { flaskSecret := "dev-fallback", baseURL := "https://delhihighcourt.nic.in",
    tesseractPath := "" }

/-- A legitimate alternative configuration: `BASE_URL` overridden in the
environment. -/
def exampleConfig : AppConfig :=
  { flaskSecret := "dev-fallback", baseURL := "https://example.com",
    tesseractPath := "" }

/-- The `BASE_URL` configuration value. -/
def baseUrlOf (cfg : AppConfig) : String := cfg.baseURL

/-! ## URL normalization and the two-hop PDF resolution
(app.py lines 48-54 and 299-349) -/

/-- Python `str.startswith` on strings (character-exact). -/
def strStartsWith (s p : String) : Bool := p.data.isPrefixOf s.data

/-- The relative-to-absolute URL normalization used inside `get_actual_pdf_url`
for both the intermediate href (app.py lines 304-307) and the final PDF href
(lines 329-332).  Python guards both branches with the href's truthiness
(`if url and url.startswith("/") ... elif url and not url.startswith("http")`),
and the only falsy string is the empty one, so an empty href passes through
unchanged.  Note the source hardcodes the literal
`"https://delhihighcourt.nic.in"` here; it does not consult `BASE_URL`. -/
def resolveUrl (u : String) : String :=
  if u = "" then u
  else if strStartsWith u "/" then "https://delhihighcourt.nic.in" ++ u
  else if !(strStartsWith u "http") then "https://delhihighcourt.nic.in/" ++ u
  else u

/-- The null-guarded form: Python tests `if actual_pdf_url and ...`, so a
missing attribute value passes through unchanged (app.py lines 329-332). -/
def resolveOptUrl (h : Option String) : Option String :=
  match h with
  | none => none
  | some u => some (resolveUrl u)

/-- Function `first_pdf_link` (app.py lines 48-54): takes the `href` attribute of the
first `.pdf` anchor of a row (`none` when the anchor or attribute is absent)
and prepends the configured `BASE_URL` to root-relative hrefs only.  This
helper is defined in the source but never called by the scrape pipeline. -/
def first_pdf_link (cfg : AppConfig) (href : Option String) : Option String :=
  match href with
  | none => none
  | some h => if strStartsWith h "/" then some (cfg.baseURL ++ h) else some h

/-- Environment of one `get_actual_pdf_url` call: `currentUrl` is the value
`page.url` has before any navigation of this call; the two `Fails` flags say
whether the corresponding `page.goto` (or its following waits) raises; the
anchor fields give the result of locating the final PDF anchor on the
intermediate page and reading its `href` attribute. -/
structure NavEnv where
  currentUrl : String
  gotoFails : Bool
  finalAnchorCount : Nat
  finalAnchorHref : Option String
  gotoBackFails : Bool
  deriving DecidableEq

/-- Navigation effects emitted by `get_actual_pdf_url`. -/
inductive NavEv where
  | goto : String → NavEv
  | gotoFailed : String → NavEv
  | gotoBack : String → NavEv
  | gotoBackFailed : String → NavEv
  deriving DecidableEq

/-- Function `get_actual_pdf_url` (app.py lines 299-349).  Control flow of the source:
normalize the intermediate href; remember `page.url`; navigate to the
intermediate page (any exception up to here is caught by the outer handler,
returning `None`); read and normalize the final PDF href if its anchor is
present; attempt to navigate back to the remembered URL inside a bare
`try/except` whose failure is only printed; return the resolved URL.
A `None` intermediate href makes `page.goto(None)` raise, so the outer
handler returns `None` before any navigation. -/
def get_actual_pdf_url (env : NavEnv) (intermediateHref : Option String) :
    Option String × List NavEv :=
  match intermediateHref with
  | none => (none, [])
  | some u =>
    if env.gotoFails then (none, [NavEv.gotoFailed (resolveUrl u)])
    else
      if env.gotoBackFails then
        (if 0 < env.finalAnchorCount then resolveOptUrl env.finalAnchorHref else none,
         [NavEv.goto (resolveUrl u), NavEv.gotoBackFailed env.currentUrl])
      else
        (if 0 < env.finalAnchorCount then resolveOptUrl env.finalAnchorHref else none,
         [NavEv.goto (resolveUrl u), NavEv.gotoBack env.currentUrl])

/-! ## Result extraction (app.py lines 57-63 and 244-297) -/

/-- Function `safe_text` (app.py lines 57-63) with the element-read outcome made
explicit: `some t` is a successful `inner_text` (which the source strips),
`none` is a missing element or a timeout (the `except` branch). -/
def safe_text (v : Option String) (fallback : String) : String :=
  match v with
  | some t => pyStripS t
  | none => fallback

/-- The DOM answers `extract_case_data` consumes: the parties and dates cell
texts (optional: missing element/timeout), the count of the intermediate PDF
anchor, its `href` attribute, and the navigation environment of the inner
`get_actual_pdf_url` call. -/
structure PageData where
  partiesCell : Option String
  datesCell : Option String
  pdfAnchorCount : Nat
  pdfAnchorHref : Option String
  nav : NavEnv
  deriving DecidableEq

/-- The record built at app.py lines 286-297. -/
structure CaseRecord where
  case_number : String
  case_type : String
  filing_year : String
  parties : String
  next_hearing_date : String
  last_hearing_date : String
  court_no : String
  pdf_url : Option String
  status : String
  found : Bool
  deriving DecidableEq

/-- Function `extract_case_data` (app.py lines 244-297): read the parties and dates
cells through `safe_text`, parse the dates cell with the fixed pattern, follow
the intermediate PDF anchor through `get_actual_pdf_url` when it is present,
and build the record with `found = True` and the fixed status string. -/
def extract_case_data (pd : PageData) (case_number case_type filing_year : String) :
    CaseRecord :=
  { case_number := case_number
    case_type := case_type
    filing_year := filing_year
    parties := safe_text pd.partiesCell "Not available"
    next_hearing_date := (parseDatesFields (safe_text pd.datesCell "Not available")).1
    last_hearing_date := (parseDatesFields (safe_text pd.datesCell "Not available")).2.1
    court_no := (parseDatesFields (safe_text pd.datesCell "Not available")).2.2
    pdf_url :=
      if 0 < pd.pdfAnchorCount then (get_actual_pdf_url pd.nav pd.pdfAnchorHref).1
      else none
    status := "Case details extracted"
    found := true }

/-! ## CAPTCHA image preprocessing (app.py lines 145-170)

Images are grids of pixel values; an RGB image carries one triple per
coordinate, a single-channel image one value.  PIL mode `L` and mode `1` are
both single-channel; mode `1` is the bilevel mode produced by `point` with
argument `'1'`. -/

/-- The single-channel PIL modes occurring in the pipeline. -/
inductive GMode where
  | L : GMode
  | bilevel : GMode
  deriving DecidableEq

/-- A decoded RGB image (the result of `Image.open` on the screenshot bytes). -/
structure RGBImage where
  width : Nat
  height : Nat
  px : Nat → Nat → Nat × Nat × Nat

/-- A single-channel image. -/
structure GrayImage where
  mode : GMode
  width : Nat
  height : Nat
  px : Nat → Nat → Nat

/-- Pillow's RGB→L conversion (ITU-R 601-2 weights as fixed-point in
`convert.c`): `L = (R*19595 + G*38470 + B*7471 + 32768) >> 16`. -/
def lum (p : Nat × Nat × Nat) : Nat :=
  (p.1 * 19595 + p.2.1 * 38470 + p.2.2 * 7471 + 32768) / 65536

/-- Step `image.convert('L')` (app.py line 153). -/
def convertL (img : RGBImage) : GrayImage :=
  { mode := GMode.L, width := img.width, height := img.height,
    px := fun x y => lum (img.px x y) }

/-- Step `image.resize((w*3, h*3), Image.LANCZOS)` (app.py line 157).  The target
geometry and mode preservation follow the source; the resampled pixel values
are computed by Pillow's floating-point Lanczos convolution and are abstracted
here as the `sample` argument (no property proved below depends on them). -/
def pilResize (sample : Nat → Nat → Nat) (tw th : Nat) (img : GrayImage) :
    GrayImage :=
  { mode := img.mode, width := tw, height := th, px := sample }

/-- Sum of all pixel values of a single-channel image. -/
def graySum (img : GrayImage) : Nat :=
  (List.range img.width).foldl
    (fun a x => (List.range img.height).foldl (fun b y => b + img.px x y) a) 0

/-- The rounded mean Pillow's `ImageEnhance.Contrast` computes:
`int(mean + 0.5)` over all pixels, i.e. `(2*sum + n) / (2*n)` in exact
integer arithmetic. -/
def grayMean (img : GrayImage) : Nat :=
  if img.width * img.height = 0 then 0
  else (2 * graySum img + img.width * img.height) / (2 * (img.width * img.height))

/-- Clamp an integer into the byte range. -/
def clamp255 (v : Int) : Nat := (max 0 (min 255 v)).toNat

/-- Step `ImageEnhance.Contrast(image).enhance(2.0)` (app.py lines 160-161):
extrapolation from the solid mean image with factor 2, giving
`clamp(2*x - mean)` per pixel; mode and geometry unchanged. -/
def contrastEnhance2 (img : GrayImage) : GrayImage :=
  { mode := img.mode, width := img.width, height := img.height,
    px := fun x y => clamp255 (2 * (img.px x y : Int) - (grayMean img : Int)) }

/-- Step `image.point(lambda x: 0 if x < 128 else 255, '1')` (app.py lines 164-165):
binarize at threshold 128 and convert to the bilevel mode. -/
def pointBinarize (img : GrayImage) : GrayImage :=
  { mode := GMode.bilevel, width := img.width, height := img.height,
    px := fun x y => if img.px x y < 128 then 0 else 255 }

/-- Insert into a sorted list (ascending). -/
def insertAsc (v : Nat) : List Nat → List Nat
  | [] => [v]
  | w :: ws => if v ≤ w then v :: w :: ws else w :: insertAsc v ws

/-- Insertion sort, ascending. -/
def sortAsc (l : List Nat) : List Nat := l.foldr insertAsc []

/-- Clamp a signed coordinate into `[0, n-1]` (edge replication at borders). -/
def clampCoord (n : Nat) (i : Int) : Nat := (max 0 (min ((n : Int) - 1) i)).toNat

/-- Step `image.filter(ImageFilter.MedianFilter(size=3))` (app.py line 168): each
pixel becomes the rank-4 element (the median) of the sorted 3x3 neighborhood,
with border coordinates clamped; mode and geometry unchanged. -/
def medianFilter3 (img : GrayImage) : GrayImage :=
  { mode := img.mode, width := img.width, height := img.height,
    px := fun x y =>
      (sortAsc ((([-1, 0, 1] : List Int).map (fun dy =>
        ([-1, 0, 1] : List Int).map (fun dx =>
          img.px (clampCoord img.width ((x : Int) + dx))
                 (clampCoord img.height ((y : Int) + dy))))).flatten)).getD 4 0 }

/-- Function `preprocess_captcha_image` (app.py lines 145-170): grayscale, 3x Lanczos
upscale, 2.0x contrast, threshold-128 binarization, median filter 3 —
unconditionally and in this order. -/
def preprocess_captcha_image (sample : Nat → Nat → Nat) (img : RGBImage) :
    GrayImage :=
  medianFilter3 (pointBinarize (contrastEnhance2
    (pilResize sample (img.width * 3) (img.height * 3) (convertL img))))

/-! ## The OCR CAPTCHA-solving loop (app.py lines 173-228) -/

/-- Environment of one `solve_captcha_with_ocr` call.  `capture k` is the byte
string the k-th `img_locator.screenshot()` call returns (the site regenerates
the image, so each call is a fresh capture); `rawOcr b` is the raw
`pytesseract.image_to_string` output for the preprocessed form of bytes `b`;
`buttonPresent k` is whether `page.locator('#search').count() > 0` in attempt
`k`; `accepted k` is the attempt-`k` success probe
(`inp.count() == 0 or results.count() > 0`); `raises k` models an exception
thrown in the attempt-`k` body after the screenshot (caught at app.py
line 220). -/
structure OcrEnv where
  capture : Nat → List Nat
  rawOcr : List Nat → String
  buttonPresent : Nat → Bool
  accepted : Nat → Bool
  raises : Nat → Bool

/-- Page effects emitted by the CAPTCHA-solving loop: `capture k b` is the
k-th screenshot call returning bytes `b`; `fill t` writes `t` into the CAPTCHA
input; `click` presses the submit button. -/
inductive Ev where
  | capture : Nat → List Nat → Ev
  | fill : String → Ev
  | click : Ev
  deriving DecidableEq

/-- Outcome of one attempt body: `success` returns `True` from the loop,
`fatal` returns `False` immediately (submit button missing), `failed` falls
through to the next attempt. -/
inductive AOut where
  | success : AOut
  | fatal : AOut
  | failed : AOut
  deriving DecidableEq

/-- The recognized text of attempt `k`: raw OCR output of the freshly captured
bytes, stripped and filtered to alphanumerics (app.py lines 182-194). -/
def recognizedText (env : OcrEnv) (k : Nat) : String :=
  cleanText (env.rawOcr (env.capture k))

/-- The body of loop attempt `k` (app.py lines 178-221): screenshot, OCR,
clean; if the cleaned text has length at least 4, fill the CAPTCHA input, then
(if the submit button exists) click and probe for acceptance, else return
`False`; shorter text skips filling and submitting entirely.  An exception
after the capture is caught and the attempt counts as failed. -/
def attemptBody (env : OcrEnv) (k : Nat) : AOut × List Ev :=
  if env.raises k then (AOut.failed, [Ev.capture k (env.capture k)])
  else
    if 4 ≤ (recognizedText env k).length then
      if env.buttonPresent k then
        if env.accepted k then
          (AOut.success,
           [Ev.capture k (env.capture k), Ev.fill (recognizedText env k), Ev.click])
        else
          (AOut.failed,
           [Ev.capture k (env.capture k), Ev.fill (recognizedText env k), Ev.click])
      else (AOut.fatal, [Ev.capture k (env.capture k), Ev.fill (recognizedText env k)])
    else (AOut.failed, [Ev.capture k (env.capture k)])

/-- The `for attempt in range(max_attempts)` loop (app.py line 177), as a
fuel recursion: `fuel` attempts remain and `k` is the index of the next one.
Exhausting the range returns `False` (app.py line 228). -/
def solveLoop (env : OcrEnv) : Nat → Nat → Bool × List Ev
  | 0, _ => (false, [])
  | fuel + 1, k =>
    match attemptBody env k with
    | (AOut.success, evs) => (true, evs)
    | (AOut.fatal, evs) => (false, evs)
    | (AOut.failed, evs) =>
        ((solveLoop env fuel (k + 1)).1, evs ++ (solveLoop env fuel (k + 1)).2)

/-- Function `solve_captcha_with_ocr` (app.py lines 173-228); the source's
`max_attempts` parameter defaults to 3. -/
def solve_captcha_with_ocr (env : OcrEnv) (maxAttempts : Nat) : Bool × List Ev :=
  solveLoop env maxAttempts 0

/-! ## CAPTCHA dispatch and the scrape pipeline
(app.py lines 118-142 and 231-241) -/

/-- The CAPTCHA image selector `SELECTORS["captcha_img"]` (app.py line 37). -/
def captchaImgSelector : String := "#captcha-code"

/-- The CAPTCHA input selector `SELECTORS["captcha_input"]` (app.py line 38). -/
def captchaInputSelector : String := "#captchaInput"

/-- Function `handle_captcha` (app.py lines 231-241): when either the CAPTCHA image or
the CAPTCHA input has element count zero, return `True` with no further
action; otherwise run the OCR solving loop (with its default of 3 attempts).
`counts` gives `page.locator(sel).count()` per selector. -/
def handle_captcha (counts : String → Nat) (env : OcrEnv) (maxAttempts : Nat) :
    Bool × List Ev :=
  if counts captchaImgSelector = 0 ∨ counts captchaInputSelector = 0 then (true, [])
  else solve_captcha_with_ocr env maxAttempts

/-- The CAPTCHA-solving strategies the design document describes. -/
inductive CaptchaStrategy where
  | ocr : CaptchaStrategy
  | interactive : CaptchaStrategy
  | remote : CaptchaStrategy
  deriving DecidableEq

/-- The solving strategy the program uses under a given configuration.
`handle_captcha` (app.py lines 231-241) invokes `solve_captcha_with_ocr`
unconditionally; app.py reads no configuration beyond `FLASK_SECRET`,
`BASE_URL` and `TESSERACT_PATH` (lines 16-19), and contains no interactive or
remote solving code, so the strategy is the OCR one for every configuration. -/
def captchaStrategyOf (_ : AppConfig) : CaptchaStrategy := CaptchaStrategy.ocr

/-- The CAPTCHA-and-extraction tail of `scrape_case_details` (app.py lines
132-140): if `handle_captcha` reports failure, raise (`Except.error`);
otherwise wait and delegate to `extract_case_data`.  The preceding navigation
and form-fill steps do not influence this control flow and are elided. -/
def scrape_case_details (counts : String → Nat) (env : OcrEnv) (pd : PageData)
    (case_number case_type filing_year : String) : Except String CaseRecord :=
  if (handle_captcha counts env 3).1 then
    Except.ok (extract_case_data pd case_number case_type filing_year)
  else Except.error "CAPTCHA not solved"

/-! ## Observation helpers and concrete instances for the theorems -/

/-- The capture effects of a trace, in order: pairs of screenshot-call index
and returned bytes. -/
def capturesOf (evs : List Ev) : List (Nat × List Nat) :=
  evs.filterMap (fun e =>
    match e with
    | Ev.capture i b => some (i, b)
    | _ => none)

/-- List of `n` consecutive indices starting at `k`. -/
def idxFrom : Nat → Nat → List Nat
  | _, 0 => []
  | k, n + 1 => k :: idxFrom (k + 1) n

/-- An OCR environment whose engine always reads the two-character string
`"ab"`: recognition succeeds but the cleaned text is shorter than 4. -/
def envShortText : OcrEnv :=
  { capture := fun _ => [7, 7], rawOcr := fun _ => "ab",
    buttonPresent := fun _ => true, accepted := fun _ => false,
    raises := fun _ => false }

/-- A navigation environment for witnesses: anchored on a concrete results
URL, with the final anchor present and root-relative. -/
def navDemo : NavEnv :=
  { currentUrl := "https://delhihighcourt.nic.in/app/get-case-type-status",
    gotoFails := false, finalAnchorCount := 1,
    finalAnchorHref := some "/uploads/judgment.pdf", gotoBackFails := false }

/-- The dates cell of the design document's worked example. -/
def demoDatesCell : String :=
  "NEXT DATE: 12.03.2024  Last Date: 10.01.2024  COURT NO: 5"

/-- Page data for the worked example: both cells present, no PDF anchor. -/
def demoPage : PageData :=
  { partiesCell := some "A versus B", datesCell := some demoDatesCell,
    pdfAnchorCount := 0, pdfAnchorHref := none, nav := navDemo }

/-- Page data whose dates cell is missing (so the parsed text is the fallback
`"Not available"`, which the pattern does not match). -/
def noMatchPage : PageData :=
  { partiesCell := some "A versus B", datesCell := none,
    pdfAnchorCount := 0, pdfAnchorHref := none, nav := navDemo }

/-- Page data whose parties cell exists but holds only whitespace. -/
def emptyPartiesPage : PageData :=
  { partiesCell := some "  ", datesCell := some demoDatesCell,
    pdfAnchorCount := 0, pdfAnchorHref := none, nav := navDemo }

/-! ## Helper lemmas -/

theorem capturesOf_append (a b : List Ev) :
    capturesOf (a ++ b) = capturesOf a ++ capturesOf b := by
  simp [capturesOf, List.filterMap_append]

theorem attemptBody_captures (env : OcrEnv) (k : Nat) :
    capturesOf (attemptBody env k).2 = [(k, env.capture k)] := by
  unfold attemptBody
  repeat' split
  all_goals simp [capturesOf]

theorem solveLoop_captures (env : OcrEnv) (fuel : Nat) : ∀ k : Nat,
    ∃ n, n ≤ fuel ∧ capturesOf (solveLoop env fuel k).2
      = (idxFrom k n).map (fun i => (i, env.capture i)) := by
  induction fuel with
  | zero =>
    intro k
    exact ⟨0, Nat.le_refl 0, by simp [solveLoop, capturesOf, idxFrom]⟩
  | succ fuel ih =>
    intro k
    have hc := attemptBody_captures env k
    rcases h : attemptBody env k with ⟨out, evs⟩
    rw [h] at hc
    cases out with
    | success =>
      exact ⟨1, by omega, by simp [solveLoop, h, hc, idxFrom]⟩
    | fatal =>
      exact ⟨1, by omega, by simp [solveLoop, h, hc, idxFrom]⟩
    | failed =>
      obtain ⟨n, hn, hcap⟩ := ih (k + 1)
      refine ⟨n + 1, by omega, ?_⟩
      simp [solveLoop, h, capturesOf_append, hc, hcap, idxFrom]

theorem pyOrS_ne_empty (s d : String) (hd : d ≠ "") : pyOrS s d ≠ "" := by
  unfold pyOrS
  split
  · exact hd
  · assumption

theorem parseDatesFields_ne_empty (dates : String) :
    (parseDatesFields dates).1 ≠ "" ∧ (parseDatesFields dates).2.1 ≠ "" ∧
    (parseDatesFields dates).2.2 ≠ "" := by
  unfold parseDatesFields
  rcases h : reSearch datesPattern dates.data with _ | gs
  · refine ⟨by decide, by decide, by decide⟩
  · have hna : ("Not available" : String) ≠ "" := by decide
    rcases gs with _ | ⟨g1, _ | ⟨g2, _ | ⟨g3, rest⟩⟩⟩
    · exact ⟨hna, hna, hna⟩
    · exact ⟨hna, hna, hna⟩
    · exact ⟨hna, hna, hna⟩
    · exact ⟨pyOrS_ne_empty _ _ (by decide), pyOrS_ne_empty _ _ hna,
             pyOrS_ne_empty _ _ hna⟩

/-! ## Claim theorems -/

/-- C1: the OCR solving strategy performs at most `maxAttempts` (default 3)
capture/recognize/submit cycles, each cycle taking exactly one fresh
screenshot: the trace's capture events are, in order, the screenshot calls
`0, 1, ..., n-1` for some `n ≤ maxAttempts`, the `i`-th cycle consuming the
bytes `env.capture i` returned by its own screenshot call — never the bytes
of a prior iteration. -/
theorem ocr_solver_bounded_and_fresh (env : OcrEnv) (m : Nat) :
    ∃ n, n ≤ m ∧
      capturesOf (solve_captcha_with_ocr env m).2
        = (idxFrom 0 n).map (fun i => (i, env.capture i)) := by
  simpa [solve_captcha_with_ocr] using solveLoop_captures env m 0

/-- C2: in an attempt cycle whose recognized CAPTCHA text is shorter than 4
characters (and whose body does not raise), the solver emits only the capture
event — it neither fills the CAPTCHA input nor clicks the submit control —
and the loop still spends exactly one of its remaining attempts on the cycle,
continuing with the next attempt index and one unit of fuel less. -/
theorem short_text_cycle_no_submit (env : OcrEnv) (k fuel : Nat)
    (hr : env.raises k = false)
    (hlen : (recognizedText env k).length < 4) :
    attemptBody env k = (AOut.failed, [Ev.capture k (env.capture k)]) ∧
    solveLoop env (fuel + 1) k =
      ((solveLoop env fuel (k + 1)).1,
        Ev.capture k (env.capture k) :: (solveLoop env fuel (k + 1)).2) := by
  have h4 : ¬ 4 ≤ (recognizedText env k).length := by omega
  have hb : attemptBody env k = (AOut.failed, [Ev.capture k (env.capture k)]) := by
    simp [attemptBody, hr, h4]
  exact ⟨hb, by simp [solveLoop, hb]⟩

theorem short_text_cycle_no_submit_witness :
    attemptBody envShortText 0 = (AOut.failed, [Ev.capture 0 (envShortText.capture 0)]) ∧
    solveLoop envShortText 1 0 =
      ((solveLoop envShortText 0 1).1,
        Ev.capture 0 (envShortText.capture 0) :: (solveLoop envShortText 0 1).2) :=
  short_text_cycle_no_submit envShortText 0 0 rfl (by decide)

/-- C3: the dates-cell parser of `extract_case_data`: (1) on the exact input
`"NEXT DATE: 12.03.2024  Last Date: 10.01.2024  COURT NO: 5"` it produces
next/last hearing dates `"12.03.2024"` / `"10.01.2024"` and court number
`"5"`; (2) whenever the three-label pattern does not match the dates text, the
three date fields of the returned record are all `"Not available"` and the
record still carries `found = true`; (3) whenever the pattern matches, each
captured group is stripped and an empty stripped group falls back to
`"Not available"`, except the next-date group which falls back to `"NA"`
(`pyOrS` is Python's `or`-fallback on the stripped group). -/
theorem dates_parser_spec :
    parseDatesFields demoDatesCell = ("12.03.2024", "10.01.2024", "5") ∧
    (∀ (pd : PageData) (cn ct fy : String),
      reSearch datesPattern (safe_text pd.datesCell "Not available").data = none →
        (extract_case_data pd cn ct fy).next_hearing_date = "Not available" ∧
        (extract_case_data pd cn ct fy).last_hearing_date = "Not available" ∧
        (extract_case_data pd cn ct fy).court_no = "Not available" ∧
        (extract_case_data pd cn ct fy).found = true) ∧
    (∀ (s : String) (g1 g2 g3 : List Char) (rest : List (List Char)),
      reSearch datesPattern s.data = some (g1 :: g2 :: g3 :: rest) →
        parseDatesFields s =
          (pyOrS ⟨stripL g1⟩ "NA", pyOrS ⟨stripL g2⟩ "Not available",
           pyOrS ⟨stripL g3⟩ "Not available")) := by
  refine ⟨by decide, ?_, ?_⟩
  · intro pd cn ct fy h
    refine ⟨?_, ?_, ?_, rfl⟩ <;> simp [extract_case_data, parseDatesFields, h]
  · intro s g1 g2 g3 rest h
    simp [parseDatesFields, h]

theorem dates_parser_spec_witness :
    ((extract_case_data noMatchPage "9" "X" "1999").next_hearing_date = "Not available" ∧
     (extract_case_data noMatchPage "9" "X" "1999").last_hearing_date = "Not available" ∧
     (extract_case_data noMatchPage "9" "X" "1999").court_no = "Not available" ∧
     (extract_case_data noMatchPage "9" "X" "1999").found = true) ∧
    parseDatesFields demoDatesCell =
      (pyOrS ⟨stripL ("12.03.2024".data)⟩ "NA",
       pyOrS ⟨stripL ("10.01.2024".data)⟩ "Not available",
       pyOrS ⟨stripL ("5".data)⟩ "Not available") :=
  ⟨dates_parser_spec.2.1 noMatchPage "9" "X" "1999" (by decide),
   dates_parser_spec.2.2 demoDatesCell ("12.03.2024".data) ("10.01.2024".data)
     ("5".data) [] (by decide)⟩

/-- C4 counterexample: under the configuration that sets `BASE_URL` to
`"https://example.com"`, the resolution of the root-relative href
`"/orders/j.pdf"` performed by `get_actual_pdf_url` still produces
`"https://delhihighcourt.nic.in/orders/j.pdf"` (the literal hardcoded at
app.py lines 305-307), which is not the configured base URL concatenated with
the href — refuting the claim as stated. -/
theorem resolveUrl_ignores_configured_base :
    resolveUrl "/orders/j.pdf" = "https://delhihighcourt.nic.in/orders/j.pdf" ∧
    baseUrlOf exampleConfig = "https://example.com" ∧
    ¬ resolveUrl "/orders/j.pdf" = baseUrlOf exampleConfig ++ "/orders/j.pdf" := by
  refine ⟨by decide, rfl, by decide⟩

/-- C4 amended: for every root-relative href, `get_actual_pdf_url` resolves it
to the literal default base URL `"https://delhihighcourt.nic.in"` (not the
`BASE_URL` configuration value) concatenated with the href — the literal has
no trailing slash, so the junction carries exactly the href's own separator —
and every non-empty, non-absolute, non-rooted href resolves to that literal
plus `"/"` plus the href.  The empty href is falsy in Python, so both guarded
branches skip it and it passes through unchanged (for the final anchor the
program then returns `pdf_url = ""`; for the intermediate anchor the
navigation to `""` raises and the surrounding handler yields `None`). -/
theorem resolveUrl_uses_hardcoded_base (u : String) :
    (strStartsWith u "/" = true →
      resolveUrl u = "https://delhihighcourt.nic.in" ++ u) ∧
    (¬ u = "" → strStartsWith u "/" = false → strStartsWith u "http" = false →
      resolveUrl u = "https://delhihighcourt.nic.in/" ++ u) ∧
    resolveUrl "" = "" ∧
    ("/".data.isSuffixOf ("https://delhihighcourt.nic.in".data)) = false := by
  refine ⟨fun h => ?_, fun h0 h1 h2 => by simp [resolveUrl, h0, h1, h2],
    by decide, by decide⟩
  have h0 : ¬ u = "" := by
    intro he
    subst he
    exact absurd h (by decide)
  simp [resolveUrl, h0, h]

theorem resolveUrl_uses_hardcoded_base_witness :
    resolveUrl "/a.pdf" = "https://delhihighcourt.nic.in" ++ "/a.pdf" ∧
    resolveUrl "b.pdf" = "https://delhihighcourt.nic.in/" ++ "b.pdf" ∧
    resolveUrl "" = "" :=
  ⟨(resolveUrl_uses_hardcoded_base "/a.pdf").1 (by decide),
   (resolveUrl_uses_hardcoded_base "b.pdf").2.1 (by decide) (by decide) (by decide),
   (resolveUrl_uses_hardcoded_base "").2.2.1⟩

/-- C5: in the two-hop PDF resolution, whenever the navigation to the
intermediate page succeeds, the function attempts to navigate back to the
pre-resolution URL it saved before that navigation (the back event targets
`env.currentUrl`, the page URL at save time), and an execution whose return
navigation raises returns exactly the same already-resolved `pdf_url` as one
whose return navigation succeeds — the failure is only recorded, never
propagated. -/
theorem pdf_backnav_failure_preserves_url (env : NavEnv) (u : String)
    (h : env.gotoFails = false) :
    (get_actual_pdf_url { env with gotoBackFails := true } (some u)).1
      = (get_actual_pdf_url { env with gotoBackFails := false } (some u)).1 ∧
    (get_actual_pdf_url { env with gotoBackFails := true } (some u)).1
      = (if 0 < env.finalAnchorCount then resolveOptUrl env.finalAnchorHref
         else none) ∧
    (get_actual_pdf_url { env with gotoBackFails := true } (some u)).2
      = [NavEv.goto (resolveUrl u), NavEv.gotoBackFailed env.currentUrl] := by
  refine ⟨?_, ?_, ?_⟩ <;> simp [get_actual_pdf_url, h]

theorem pdf_backnav_failure_preserves_url_witness :
    (get_actual_pdf_url { navDemo with gotoBackFails := true } (some "/app/case.pdf")).1
      = (get_actual_pdf_url { navDemo with gotoBackFails := false }
          (some "/app/case.pdf")).1 ∧
    (get_actual_pdf_url { navDemo with gotoBackFails := true } (some "/app/case.pdf")).1
      = (if 0 < navDemo.finalAnchorCount then resolveOptUrl navDemo.finalAnchorHref
         else none) ∧
    (get_actual_pdf_url { navDemo with gotoBackFails := true } (some "/app/case.pdf")).2
      = [NavEv.goto (resolveUrl "/app/case.pdf"),
         NavEv.gotoBackFailed navDemo.currentUrl] :=
  pdf_backnav_failure_preserves_url navDemo "/app/case.pdf" rfl

/-- C6: for every input image, `preprocess_captcha_image` returns a
single-channel (bilevel) image whose width and height are exactly 3 times the
input's, and it is the composition — in this order — of grayscale conversion,
3x upscale (with Pillow's smooth Lanczos resampling, whose sample values the
`sample` argument abstracts), 2.0x contrast boost, binarization at luminance
threshold 128 (strictly below 128 becomes black 0, at or above becomes white
255), and a median filter of window 3. -/
theorem preprocess_single_channel_3x (sample : Nat → Nat → Nat) (img : RGBImage) :
    (preprocess_captcha_image sample img).mode = GMode.bilevel ∧
    (preprocess_captcha_image sample img).width = 3 * img.width ∧
    (preprocess_captcha_image sample img).height = 3 * img.height ∧
    preprocess_captcha_image sample img =
      medianFilter3 (pointBinarize (contrastEnhance2
        (pilResize sample (img.width * 3) (img.height * 3) (convertL img)))) ∧
    (∀ x y,
      (pointBinarize (contrastEnhance2 (pilResize sample (img.width * 3)
          (img.height * 3) (convertL img)))).px x y
        = if (contrastEnhance2 (pilResize sample (img.width * 3)
            (img.height * 3) (convertL img))).px x y < 128 then 0 else 255) := by
  refine ⟨rfl, Nat.mul_comm img.width 3, Nat.mul_comm img.height 3, rfl,
    fun x y => rfl⟩

theorem mem_of_mem_stripL {c : Char} {l : List Char} (h : c ∈ stripL l) :
    c ∈ l := by
  unfold stripL at h
  rw [List.mem_reverse] at h
  have h1 : c ∈ (l.dropWhile pyIsSpaceC).reverse :=
    (List.dropWhile_sublist _).subset h
  rw [List.mem_reverse] at h1
  exact (List.dropWhile_sublist _).subset h1

/-- C7 counterexample: Python `str.isalnum` accepts the non-ASCII letter
U+00E9 (Latin small letter e with acute), so for the raw engine string
`"ab!é"` — a mixture of letters and punctuation — the post-filtered text the
program computes retains the character `é`, which lies outside the whitelist
`[0-9A-Za-z]`: the whitelist-only universal fails.  (`unicodeTblDemo` records
just this code point of Python's Unicode table.) -/
theorem ocr_output_keeps_nonascii_alnum :
    cleanTextU unicodeTblDemo "ab!é" = "abé" ∧
    ('é' ∈ (cleanTextU unicodeTblDemo "ab!é").data) ∧
    ¬ ((48 ≤ ('é').toNat ∧ ('é').toNat ≤ 57) ∨
       (65 ≤ ('é').toNat ∧ ('é').toNat ≤ 90) ∨
       (97 ≤ ('é').toNat ∧ ('é').toNat ≤ 122)) := by
  refine ⟨by decide, by decide, by decide⟩

/-- C7 amended: for every raw string the OCR engine returns, the
post-filtered recognized text contains only characters Python classes as
alphanumeric — on the ASCII repertoire that is exactly the fixed whitelist
`[0-9A-Za-z]`, and in particular for raw strings made of ASCII punctuation,
whitespace, digits and letters the output is whitelist-only — while a
non-ASCII alphanumeric in the raw output survives the filter; total OCR
failure yields the empty string rather than an exception.  The statement is
quantified over the abstracted non-ASCII part `tbl` of Python's Unicode
table. -/
theorem ocr_output_isalnum_filtered (tbl : Char → Bool) (raw : String) :
    ((cleanTextU tbl raw).data.all (pyIsAlnumU tbl)) = true ∧
    ((∀ c ∈ raw.data, c.toNat ≤ 127) →
      ((cleanTextU tbl raw).data.all pyIsAlnumAscii) = true) ∧
    cleanTextU tbl "" = "" := by
  refine ⟨?_, ?_, ?_⟩
  · rw [List.all_eq_true]
    intro c hc
    exact (List.mem_filter.mp hc).2
  · intro hascii
    rw [List.all_eq_true]
    intro c hc
    have hmem : c ∈ (stripL raw.data).filter (pyIsAlnumU tbl) := hc
    have hsl := (List.mem_filter.mp hmem).1
    have hp := (List.mem_filter.mp hmem).2
    have h127 : c.toNat ≤ 127 := hascii c (mem_of_mem_stripL hsl)
    unfold pyIsAlnumU at hp
    rw [if_pos h127] at hp
    exact hp
  · have h0 : cleanTextU tbl "" = (⟨[]⟩ : String) := rfl
    rw [h0]

theorem ocr_output_isalnum_filtered_witness :
    ((cleanTextU unicodeTblDemo "a !b").data.all (pyIsAlnumU unicodeTblDemo)) = true ∧
    ((cleanTextU unicodeTblDemo "a !b").data.all pyIsAlnumAscii) = true ∧
    cleanTextU unicodeTblDemo "" = "" :=
  ⟨(ocr_output_isalnum_filtered unicodeTblDemo "a !b").1,
   (ocr_output_isalnum_filtered unicodeTblDemo "a !b").2.1 (by decide),
   (ocr_output_isalnum_filtered unicodeTblDemo "a !b").2.2⟩

/-- C8 counterexample: a results page whose parties cell exists but holds only
whitespace yields a record with `found = true` whose `parties` field is the
empty string — refuting the claim that every string field of a found record is
non-empty. -/
theorem found_record_empty_parties :
    (extract_case_data emptyPartiesPage "123" "W.P.(C)" "2021").found = true ∧
    (extract_case_data emptyPartiesPage "123" "W.P.(C)" "2021").parties = "" := by
  exact ⟨rfl, by decide⟩

/-- C8 amended: every record `extract_case_data` returns has `found = true`,
and all its string fields other than `parties` are non-null and non-empty
(real extracted content or a literal fallback), with `pdf_url` the only
optional field; the `parties` field is `"Not available"` when its cell is
missing or times out, but when the cell exists it is the cell's stripped text,
which is empty when the cell held only whitespace. -/
theorem found_record_fields_populated (pd : PageData) (cn ct fy : String)
    (h1 : cn ≠ "") (h2 : ct ≠ "") (h3 : fy ≠ "") :
    (extract_case_data pd cn ct fy).found = true ∧
    (extract_case_data pd cn ct fy).case_number ≠ "" ∧
    (extract_case_data pd cn ct fy).case_type ≠ "" ∧
    (extract_case_data pd cn ct fy).filing_year ≠ "" ∧
    (extract_case_data pd cn ct fy).next_hearing_date ≠ "" ∧
    (extract_case_data pd cn ct fy).last_hearing_date ≠ "" ∧
    (extract_case_data pd cn ct fy).court_no ≠ "" ∧
    (extract_case_data pd cn ct fy).status ≠ "" ∧
    (pd.partiesCell = none → (extract_case_data pd cn ct fy).parties = "Not available") ∧
    (∀ t, pd.partiesCell = some t → (extract_case_data pd cn ct fy).parties = pyStripS t) := by
  obtain ⟨hn, hl, hc⟩ := parseDatesFields_ne_empty (safe_text pd.datesCell "Not available")
  have hst : ("Case details extracted" : String) ≠ "" := by decide
  refine ⟨rfl, h1, h2, h3, hn, hl, hc, hst, ?_, ?_⟩
  · intro hp
    simp [extract_case_data, safe_text, hp]
  · intro t hp
    simp [extract_case_data, safe_text, hp]

theorem found_record_fields_populated_witness :
    (extract_case_data demoPage "123" "W.P.(C)" "2021").found = true ∧
    (extract_case_data demoPage "123" "W.P.(C)" "2021").next_hearing_date ≠ "" ∧
    (extract_case_data demoPage "123" "W.P.(C)" "2021").parties
      = pyStripS "A versus B" :=
  ⟨(found_record_fields_populated demoPage "123" "W.P.(C)" "2021"
      (by decide) (by decide) (by decide)).1,
   (found_record_fields_populated demoPage "123" "W.P.(C)" "2021"
      (by decide) (by decide) (by decide)).2.2.2.2.1,
   (found_record_fields_populated demoPage "123" "W.P.(C)" "2021"
      (by decide) (by decide) (by decide)).2.2.2.2.2.2.2.2.2
     "A versus B" rfl⟩

/-- C9 counterexample: the strategy the program applies is the OCR one at
every concrete configuration — including configurations with overridden
values — and the OCR strategy is distinct from the interactive and remote
strategies the claim says a configuration point can select; app.py contains
no such selector (its only configuration values are `FLASK_SECRET`,
`BASE_URL`, `TESSERACT_PATH`). -/
theorem captcha_strategy_not_selectable :
    captchaStrategyOf defaultConfig = CaptchaStrategy.ocr ∧
    captchaStrategyOf exampleConfig = CaptchaStrategy.ocr ∧
    captchaStrategyOf { defaultConfig with flaskSecret := "remote" }
      = CaptchaStrategy.ocr ∧
    CaptchaStrategy.ocr ≠ CaptchaStrategy.interactive ∧
    CaptchaStrategy.ocr ≠ CaptchaStrategy.remote := by
  exact ⟨rfl, rfl, rfl, by decide, by decide⟩

/-- C9 amended: the program exposes no CAPTCHA-strategy configuration point:
under every configuration the strategy is the OCR one, and whenever both
CAPTCHA elements are present `handle_captcha` invokes exactly the OCR solving
loop; no interactive or remote solving path exists in the program. -/
theorem captcha_strategy_always_ocr :
    (∀ cfg : AppConfig, captchaStrategyOf cfg = CaptchaStrategy.ocr) ∧
    (∀ (counts : String → Nat) (env : OcrEnv) (m : Nat),
      ¬ counts captchaImgSelector = 0 → ¬ counts captchaInputSelector = 0 →
      handle_captcha counts env m = solve_captcha_with_ocr env m) := by
  refine ⟨fun _ => rfl, fun counts env m h1 h2 => ?_⟩
  simp [handle_captcha, h1, h2]

theorem captcha_strategy_always_ocr_witness :
    captchaStrategyOf exampleConfig = CaptchaStrategy.ocr ∧
    handle_captcha (fun _ => 1) envShortText 3
      = solve_captcha_with_ocr envShortText 3 :=
  ⟨captcha_strategy_always_ocr.1 exampleConfig,
   captcha_strategy_always_ocr.2 (fun _ => 1) envShortText 3
     (by decide) (by decide)⟩

/-- C10: when the CAPTCHA image element or the CAPTCHA input element is absent
(element count zero), `handle_captcha` returns `true` with an empty effect
trace — no capture, recognition, fill or click — and the scrape proceeds to
result extraction exactly as it does after a solved CAPTCHA. -/
theorem absent_captcha_passthrough (counts : String → Nat) (env : OcrEnv)
    (pd : PageData) (cn ct fy : String)
    (h : counts captchaImgSelector = 0 ∨ counts captchaInputSelector = 0) :
    handle_captcha counts env 3 = (true, []) ∧
    scrape_case_details counts env pd cn ct fy
      = Except.ok (extract_case_data pd cn ct fy) := by
  have hh : handle_captcha counts env 3 = (true, []) := by
    simp [handle_captcha, h]
  refine ⟨hh, ?_⟩
  simp [scrape_case_details, hh]

theorem absent_captcha_passthrough_witness :
    handle_captcha (fun _ => 0) envShortText 3 = (true, []) ∧
    scrape_case_details (fun _ => 0) envShortText demoPage "123" "W.P.(C)" "2021"
      = Except.ok (extract_case_data demoPage "123" "W.P.(C)" "2021") :=
  absent_captcha_passthrough (fun _ => 0) envShortText demoPage "123" "W.P.(C)" "2021"
    (Or.inl rfl)
